import Mathlib

/-
  Shallow embedding of the metadata crosswalk core of
  src/ext/libclementine-tagreader/tagreader.cpp.

  Modelling conventions:
  * C++ `float`/`double` values are modelled as exact rationals (`ℚ`).
    The only float constants involved (0.20, 0.40, 0.60, 0.80, 1.0) compare
    against each other exactly as their rational counterparts do, so no
    claim's outcome depends on binary rounding.
  * Machine integers are `Int`/`Nat`; the POPM rating byte is an `Int`
    (the C++ parameter type is `int`), the POPM play counter a `Nat`
    (TagLib stores it as an unsigned counter).
  * Qt string-to-number conversions (`QString::toInt`, `QString::toFloat`)
    are modelled over `List Char` with Qt's "whole string must parse,
    otherwise 0" behaviour (decimal subset, sufficient for every value any
    claim exercises).
-/

namespace Clementine

/-- `TagReader::ConvertPOPMRating` (tagreader.cpp:1460-1473): decode a legacy
POPM byte into the normalized 0.0-1.0 rating scale via the fixed cascade of
comparisons. -/
def ConvertPOPMRating (POPM_rating : Int) : ℚ :=
  if POPM_rating < 0x01 then 0
  else if POPM_rating < 0x40 then 1/5
  else if POPM_rating < 0x80 then 2/5
  else if POPM_rating < 0xC0 then 3/5
  else if POPM_rating < 0xFC then 4/5
  else 1

/-- `TagReader::ConvertToPOPMRating` (tagreader.cpp:1475-1488): encode a
normalized rating as a legacy POPM byte via the fixed cascade of
comparisons. -/
def ConvertToPOPMRating (rating : ℚ) : Int :=
  if rating < 1/5 then 0x00
  else if rating < 2/5 then 0x01
  else if rating < 3/5 then 0x40
  else if rating < 4/5 then 0x80
  else if rating < 1 then 0xC0
  else 0xFF

/-- Spec-side decode table, transcribed from the spec's range table
(0x00 -> 0.0, 0x01-0x3F -> 0.20, 0x40-0x7F -> 0.40, 0x80-0xBF -> 0.60,
0xC0-0xFB -> 0.80, 0xFC-0xFF -> 1.0), for comparison with the code's
cascading implementation. -/
def specDecodeTable (b : ℕ) : ℚ :=
  if b = 0 then 0
  else if b ≤ 0x3F then 1/5
  else if b ≤ 0x7F then 2/5
  else if b ≤ 0xBF then 3/5
  else if b ≤ 0xFB then 4/5
  else 1

/-- Spec-side canonical representative of a POPM byte's quantization bucket
(0x00 for 0x00; 0x01 for 0x01-0x3F; 0x40 for 0x40-0x7F; 0x80 for 0x80-0xBF;
0xC0 for 0xC0-0xFB; 0xFF for 0xFC-0xFF). -/
def canonicalPOPMByte (b : ℕ) : Int :=
  if b = 0 then 0x00
  else if b ≤ 0x3F then 0x01
  else if b ≤ 0x7F then 0x40
  else if b ≤ 0xBF then 0x80
  else if b ≤ 0xFB then 0xC0
  else 0xFF

lemma encode_val_zero : ConvertToPOPMRating 0 = 0x00 := by
  norm_num [ConvertToPOPMRating]

lemma encode_val_fifth : ConvertToPOPMRating (1/5) = 0x01 := by
  norm_num [ConvertToPOPMRating]

lemma encode_val_two_fifths : ConvertToPOPMRating (2/5) = 0x40 := by
  norm_num [ConvertToPOPMRating]

lemma encode_val_three_fifths : ConvertToPOPMRating (3/5) = 0x80 := by
  norm_num [ConvertToPOPMRating]

lemma encode_val_four_fifths : ConvertToPOPMRating (4/5) = 0xC0 := by
  norm_num [ConvertToPOPMRating]

lemma encode_val_one : ConvertToPOPMRating 1 = 0xFF := by
  norm_num [ConvertToPOPMRating]

/-- Bucket-wise evaluation of the decode cascade on a byte value. -/
lemma decode_buckets (v : ℕ) :
    (v = 0 → ConvertPOPMRating v = 0) ∧
    (1 ≤ v → v ≤ 0x3F → ConvertPOPMRating v = 1/5) ∧
    (0x40 ≤ v → v ≤ 0x7F → ConvertPOPMRating v = 2/5) ∧
    (0x80 ≤ v → v ≤ 0xBF → ConvertPOPMRating v = 3/5) ∧
    (0xC0 ≤ v → v ≤ 0xFB → ConvertPOPMRating v = 4/5) ∧
    (0xFC ≤ v → ConvertPOPMRating v = 1) := by
  unfold ConvertPOPMRating
  refine ⟨fun h => ?_, fun h h' => ?_, fun h h' => ?_, fun h h' => ?_,
    fun h h' => ?_, fun h => ?_⟩
  · rw [if_pos (by omega)]
  · rw [if_neg (by omega), if_pos (by omega)]
  · rw [if_neg (by omega), if_neg (by omega), if_pos (by omega)]
  · rw [if_neg (by omega), if_neg (by omega), if_neg (by omega),
        if_pos (by omega)]
  · rw [if_neg (by omega), if_neg (by omega), if_neg (by omega),
        if_neg (by omega), if_pos (by omega)]
  · rw [if_neg (by omega), if_neg (by omega), if_neg (by omega),
        if_neg (by omega), if_neg (by omega)]

/-- **C2** For every byte b in 0x00..0xFF, the round trip
`ConvertToPOPMRating (ConvertPOPMRating b)` yields the canonical
representative of b's quantization bucket; in particular
`ConvertPOPMRating 0x50 = 0.40` and the round trip at 0x50 gives 0x40,
not 0x50. -/
theorem convertPOPM_roundtrip_canonical :
    (∀ b : Fin 256, ConvertToPOPMRating (ConvertPOPMRating b.val) = canonicalPOPMByte b.val) ∧
    ConvertPOPMRating 0x50 = 2/5 ∧
    ConvertToPOPMRating (ConvertPOPMRating 0x50) = 0x40 ∧
    ConvertToPOPMRating (ConvertPOPMRating 0x50) ≠ 0x50 := by
  have main : ∀ b : Fin 256,
      ConvertToPOPMRating (ConvertPOPMRating b.val) = canonicalPOPMByte b.val := by
    rintro ⟨v, hv⟩
    simp only [canonicalPOPMByte]
    obtain h := decode_buckets v
    by_cases h0 : v = 0
    · rw [h.1 h0, if_pos h0, encode_val_zero]
    by_cases h1 : v ≤ 0x3F
    · rw [h.2.1 (by omega) h1, if_neg h0, if_pos h1, encode_val_fifth]
    by_cases h2 : v ≤ 0x7F
    · rw [h.2.2.1 (by omega) h2, if_neg h0, if_neg h1, if_pos h2,
          encode_val_two_fifths]
    by_cases h3 : v ≤ 0xBF
    · rw [h.2.2.2.1 (by omega) h3, if_neg h0, if_neg h1, if_neg h2, if_pos h3,
          encode_val_three_fifths]
    by_cases h4 : v ≤ 0xFB
    · rw [h.2.2.2.2.1 (by omega) h4, if_neg h0, if_neg h1, if_neg h2,
          if_neg h3, if_pos h4, encode_val_four_fifths]
    · rw [h.2.2.2.2.2 (by omega), if_neg h0, if_neg h1, if_neg h2, if_neg h3,
          if_neg h4, encode_val_one]
  have d50 : ConvertPOPMRating 0x50 = 2/5 :=
    (decode_buckets 0x50).2.2.1 (by norm_num) (by norm_num)
  refine ⟨main, d50, ?_, ?_⟩
  · rw [d50, encode_val_two_fifths]
  · rw [d50, encode_val_two_fifths]; norm_num

/-- **C3** `ConvertPOPMRating` agrees with the spec's fixed decode table on
every byte 0x00..0xFF, and `ConvertToPOPMRating` implements exactly the
spec's inverse table on the stated domain: `< 0.20 -> 0x00`,
`0.20 ≤ _ < 0.40 -> 0x01`, `0.40 ≤ _ < 0.60 -> 0x40`,
`0.60 ≤ _ < 0.80 -> 0x80`, `0.80 ≤ _ < 1.0 -> 0xC0`, `= 1.0 -> 0xFF`. -/
theorem convertPOPM_tables_exact :
    (∀ b : Fin 256, ConvertPOPMRating b.val = specDecodeTable b.val) ∧
    (∀ q : ℚ,
      (q < 1/5 → ConvertToPOPMRating q = 0x00) ∧
      (1/5 ≤ q → q < 2/5 → ConvertToPOPMRating q = 0x01) ∧
      (2/5 ≤ q → q < 3/5 → ConvertToPOPMRating q = 0x40) ∧
      (3/5 ≤ q → q < 4/5 → ConvertToPOPMRating q = 0x80) ∧
      (4/5 ≤ q → q < 1 → ConvertToPOPMRating q = 0xC0) ∧
      (q = 1 → ConvertToPOPMRating q = 0xFF)) := by
  constructor
  · rintro ⟨v, hv⟩
    simp only [specDecodeTable]
    obtain h := decode_buckets v
    by_cases h0 : v = 0
    · rw [h.1 h0, if_pos h0]
    by_cases h1 : v ≤ 0x3F
    · rw [h.2.1 (by omega) h1, if_neg h0, if_pos h1]
    by_cases h2 : v ≤ 0x7F
    · rw [h.2.2.1 (by omega) h2, if_neg h0, if_neg h1, if_pos h2]
    by_cases h3 : v ≤ 0xBF
    · rw [h.2.2.2.1 (by omega) h3, if_neg h0, if_neg h1, if_neg h2, if_pos h3]
    by_cases h4 : v ≤ 0xFB
    · rw [h.2.2.2.2.1 (by omega) h4, if_neg h0, if_neg h1, if_neg h2,
          if_neg h3, if_pos h4]
    · rw [h.2.2.2.2.2 (by omega), if_neg h0, if_neg h1, if_neg h2, if_neg h3,
          if_neg h4]
  · intro q
    unfold ConvertToPOPMRating
    refine ⟨fun h => ?_, fun h h' => ?_, fun h h' => ?_, fun h h' => ?_,
      fun h h' => ?_, fun h => ?_⟩
    · rw [if_pos h]
    · rw [if_neg (by linarith), if_pos h']
    · rw [if_neg (by linarith), if_neg (by linarith), if_pos h']
    · rw [if_neg (by linarith), if_neg (by linarith), if_neg (by linarith),
          if_pos h']
    · rw [if_neg (by linarith), if_neg (by linarith), if_neg (by linarith),
          if_neg (by linarith), if_pos h']
    · subst h
      rw [if_neg (by norm_num), if_neg (by norm_num), if_neg (by norm_num),
          if_neg (by norm_num), if_neg (by norm_num)]

/-- Witness for `convertPOPM_tables_exact`: evaluates the encode side on one
concrete rating from each bucket of the inverse table. -/
theorem convertPOPM_tables_exact_witness :
    ConvertToPOPMRating (1/10) = 0x00 ∧ ConvertToPOPMRating (3/10) = 0x01 ∧
    ConvertToPOPMRating (1/2) = 0x40 ∧ ConvertToPOPMRating (7/10) = 0x80 ∧
    ConvertToPOPMRating (9/10) = 0xC0 ∧ ConvertToPOPMRating 1 = 0xFF :=
  ⟨(convertPOPM_tables_exact.2 (1/10)).1 (by norm_num),
   (convertPOPM_tables_exact.2 (3/10)).2.1 (by norm_num) (by norm_num),
   (convertPOPM_tables_exact.2 (1/2)).2.2.1 (by norm_num) (by norm_num),
   (convertPOPM_tables_exact.2 (7/10)).2.2.2.1 (by norm_num) (by norm_num),
   (convertPOPM_tables_exact.2 (9/10)).2.2.2.2.1 (by norm_num) (by norm_num),
   (convertPOPM_tables_exact.2 1).2.2.2.2.2 rfl⟩

/-- **C10** `ConvertToPOPMRating` is total with defined edge behaviour:
every rating strictly below 0.20 (including the unset sentinel -1) maps to
0x00, and every rating at or above 1.0 (including values above 1.0) maps to
0xFF. -/
theorem convertToPOPM_total_edges :
    (∀ q : ℚ, q < 1/5 → ConvertToPOPMRating q = 0x00) ∧
    (∀ q : ℚ, 1 ≤ q → ConvertToPOPMRating q = 0xFF) ∧
    ConvertToPOPMRating (-1) = 0x00 := by
  refine ⟨?_, ?_, by norm_num [ConvertToPOPMRating]⟩
  · intro q h
    unfold ConvertToPOPMRating
    rw [if_pos h]
  · intro q h
    unfold ConvertToPOPMRating
    rw [if_neg (by linarith), if_neg (by linarith), if_neg (by linarith),
        if_neg (by linarith), if_neg (by linarith)]

/-- Witness for `convertToPOPM_total_edges`: evaluates both edges at concrete
out-of-bucket inputs. -/
theorem convertToPOPM_total_edges_witness :
    ConvertToPOPMRating (-1) = 0x00 ∧ ConvertToPOPMRating (3/2) = 0xFF :=
  ⟨convertToPOPM_total_edges.1 (-1) (by norm_num),
   convertToPOPM_total_edges.2.1 (3/2) (by norm_num)⟩

/-- The canonical metadata record (`cpb::tagreader::SongMetadata`), restricted
to the fields the crosswalk logic reads or writes.  `playcount` and `score`
are protobuf `uint32` fields, modelled as `ℕ`. -/
structure SongMetadata where
  title : String
  artist : String
  album : String
  genre : String
  comment : String
  albumartist : String
  composer : String
  performer : String
  grouping : String
  lyrics : String
  year : Int
  track : Int
  disc : Int
  bpm : ℚ
  rating : ℚ
  playcount : ℕ
  score : ℕ
  compilation : Bool
  valid : Bool
  deriving Repr, DecidableEq

/-- Modelled from the spec: the freshly constructed record (the protobuf
message definition with its field defaults is not part of src/).  Per spec
section 3, numeric fields carry the sentinel -1 ("absent/invalid"),
`rating` is -1 (unrated), `playcount` and `score` are 0 (unset), text
fields are empty and `valid` is false. -/
def defaultSong : SongMetadata where
  title := ""
  artist := ""
  album := ""
  genre := ""
  comment := ""
  albumartist := ""
  composer := ""
  performer := ""
  grouping := ""
  lyrics := ""
  year := -1
  track := -1
  disc := -1
  bpm := -1
  rating := -1
  playcount := 0
  score := 0
  compilation := false
  valid := false

/-- A typed scalar of the FMPS structured-value encoding: a floating-point
number (`QVariant::Double`) or a text value. -/
inductive FMPSVar where
  | num (q : ℚ)
  | str (s : String)
  deriving Repr, DecidableEq

/-- Modelled from the spec: the result of `FMPSParser::Parse` on a frame
value (fmpsparser.cpp is not part of src/).  Per spec section 4.5 the codec
yields a sequence of rows, each row a sequence of typed scalars, and fails
on malformed input; `none` models a failed parse. -/
abbrev FMPSResult := Option (List (List FMPSVar))

/-- `TagReader::ParseFMPSFrame` (tagreader.cpp:615-654): dispatch one FMPS
TXXX frame onto the record.  The frame's textual value is modelled by its
parse result (see `FMPSResult`).  The C++ `double` → `uint32` conversions on
`set_playcount`/`set_score` are modelled as `Rat.floor`/`Int.toNat`
(truncation; out-of-range conversions are undefined behaviour in the
source and not exercised by any claim). -/
def ParseFMPSFrame (name : String) (value : FMPSResult) (song : SongMetadata) :
    SongMetadata :=
  match value with
  | none => song
  | some result =>
    if result.isEmpty then song
    else if name = "FMPS_Rating" then
      match (result.headD []).head? with
      | some (.num d) => { song with rating := d }
      | _ => song
    else if name = "FMPS_Rating_User" then
      -- Take a user rating only if there's no rating already set
      if song.rating = -1 ∧ 2 ≤ (result.headD []).length then
        match (result.headD [])[1]? with
        | some (FMPSVar.num d) => { song with rating := d }
        | _ => song
      else song
    else if name = "FMPS_PlayCount" then
      match (result.headD []).head? with
      | some (.num d) => { song with playcount := d.floor.toNat }
      | _ => song
    else if name = "FMPS_PlayCount_User" then
      -- Take a user playcount only if there's no playcount already set
      if song.playcount = 0 ∧ 2 ≤ (result.headD []).length then
        match (result.headD [])[1]? with
        | some (FMPSVar.num d) => { song with playcount := d.floor.toNat }
        | _ => song
      else song
    else if name = "FMPS_Rating_Amarok_Score" then
      match (result.headD []).head? with
      | some (.num d) => { song with score := (d * 100).floor.toNat }
      | _ => song
    else song

/-- An ID3v2 POPM (popularimeter) frame: rating byte and play counter. -/
structure POPMFrame where
  rating : Int
  counter : ℕ
  deriving Repr, DecidableEq

/-- First statement of the POPM block of `TagReader::ReadFile`
(tagreader.cpp:368-371): take the POPM rating only if there is no rating
already set. -/
def applyPOPMRatingStep (frame : POPMFrame) (song : SongMetadata) :
    SongMetadata :=
  if song.rating ≤ 0 ∧ 0 < frame.rating then
    { song with rating := ConvertPOPMRating frame.rating }
  else song

/-- Second statement of the POPM block of `TagReader::ReadFile`
(tagreader.cpp:372-374): take the POPM counter only if there is no
playcount already set. -/
def applyPOPMCounterStep (frame : POPMFrame) (song : SongMetadata) :
    SongMetadata :=
  if song.playcount ≤ 0 ∧ 0 < frame.counter then
    { song with playcount := frame.counter }
  else song

/-- The POPM block of `TagReader::ReadFile` (tagreader.cpp:363-376): apply
the first POPM frame's rating and counter, each only when the canonical
field is still unset and the native value is positive. -/
def applyPOPM (frame : POPMFrame) (song : SongMetadata) : SongMetadata :=
  applyPOPMCounterStep frame (applyPOPMRatingStep frame song)

lemma applyPOPMRatingStep_rating (f : POPMFrame) (s : SongMetadata) :
    (applyPOPMRatingStep f s).rating =
      if s.rating ≤ 0 ∧ 0 < f.rating then ConvertPOPMRating f.rating
      else s.rating := by
  by_cases h : s.rating ≤ 0 ∧ 0 < f.rating <;> simp [applyPOPMRatingStep, h]

lemma applyPOPMRatingStep_playcount (f : POPMFrame) (s : SongMetadata) :
    (applyPOPMRatingStep f s).playcount = s.playcount := by
  by_cases h : s.rating ≤ 0 ∧ 0 < f.rating <;> simp [applyPOPMRatingStep, h]

lemma applyPOPMCounterStep_playcount (f : POPMFrame) (s : SongMetadata) :
    (applyPOPMCounterStep f s).playcount =
      if s.playcount ≤ 0 ∧ 0 < f.counter then f.counter
      else s.playcount := by
  unfold applyPOPMCounterStep
  by_cases h : s.playcount ≤ 0 ∧ 0 < f.counter
  · rw [if_pos h, if_pos h]
  · rw [if_neg h, if_neg h]

lemma applyPOPMCounterStep_rating (f : POPMFrame) (s : SongMetadata) :
    (applyPOPMCounterStep f s).rating = s.rating := by
  unfold applyPOPMCounterStep
  by_cases h : s.playcount ≤ 0 ∧ 0 < f.counter
  · rw [if_pos h]
  · rw [if_neg h]

lemma applyPOPM_rating (f : POPMFrame) (s : SongMetadata) :
    (applyPOPM f s).rating =
      if s.rating ≤ 0 ∧ 0 < f.rating then ConvertPOPMRating f.rating
      else s.rating := by
  rw [applyPOPM, applyPOPMCounterStep_rating, applyPOPMRatingStep_rating]

lemma applyPOPM_playcount (f : POPMFrame) (s : SongMetadata) :
    (applyPOPM f s).playcount =
      if s.playcount ≤ 0 ∧ 0 < f.counter then f.counter
      else s.playcount := by
  rw [applyPOPM, applyPOPMCounterStep_playcount, applyPOPMRatingStep_playcount]


/-- An ID3v2 TXXX (user text identification) frame: description plus the
FMPS parse result of its value field. -/
structure TXXXFrame where
  description : String
  fmps : FMPSResult
  deriving Repr, DecidableEq

/-- TagLib's `String::startsWith`, modelled over the character lists (the
standard library primitive does not reduce in the kernel). -/
def strStartsWith (s pre : String) : Bool :=
  pre.toList.isPrefixOf s.toList

/-- The FMPS loop of `TagReader::ReadFile` (tagreader.cpp:348-358): every
TXXX frame whose description starts with "FMPS_" is fed to
`ParseFMPSFrame`, in frame order. -/
def parseFMPSFrames (txxx : List TXXXFrame) (song : SongMetadata) :
    SongMetadata :=
  txxx.foldl
    (fun s f =>
      if strStartsWith f.description "FMPS_" then ParseFMPSFrame f.description f.fmps s
      else s)
    song

/-- The statistics portion of the ID3v2 read branch of `TagReader::ReadFile`
(tagreader.cpp:348-377): all FMPS TXXX frames first, then the first POPM
frame (if any). -/
def readID3v2Stats (txxx : List TXXXFrame) (popm : List POPMFrame)
    (song : SongMetadata) : SongMetadata :=
  let song1 := parseFMPSFrames txxx song
  match popm.head? with
  | some frame => applyPOPM frame song1
  | none => song1

/-- **C4** Within FMPS frame parsing the plain variant takes precedence over
the user variant: for every record state, an `FMPS_Rating` frame with a
numeric first value sets the rating unconditionally, while an
`FMPS_Rating_User` frame sets the rating only if the rating is still unset
(-1); analogously `FMPS_PlayCount` (unconditional) over
`FMPS_PlayCount_User` (only when playcount is still 0). -/
theorem parseFMPS_plain_over_user (song : SongMetadata)
    (rows : List (List FMPSVar)) (d : ℚ) (hrows : rows ≠ []) :
    ((rows.headD []).head? = some (.num d) →
      (ParseFMPSFrame "FMPS_Rating" (some rows) song).rating = d ∧
      (ParseFMPSFrame "FMPS_PlayCount" (some rows) song).playcount = d.floor.toNat) ∧
    (song.rating ≠ -1 →
      (ParseFMPSFrame "FMPS_Rating_User" (some rows) song).rating = song.rating) ∧
    (song.rating = -1 → (rows.headD [])[1]? = some (.num d) →
      (ParseFMPSFrame "FMPS_Rating_User" (some rows) song).rating = d) ∧
    (song.playcount ≠ 0 →
      (ParseFMPSFrame "FMPS_PlayCount_User" (some rows) song).playcount = song.playcount) ∧
    (song.playcount = 0 → (rows.headD [])[1]? = some (.num d) →
      (ParseFMPSFrame "FMPS_PlayCount_User" (some rows) song).playcount = d.floor.toNat) := by
  have hne : ¬ rows.isEmpty := by simpa [List.isEmpty_iff] using hrows
  refine ⟨fun h1 => ⟨?_, ?_⟩, fun h2 => ?_, fun h2 h3 => ?_, fun h2 => ?_,
    fun h2 h3 => ?_⟩ <;>
    simp only [ParseFMPSFrame, hne, if_neg, if_pos, reduceIte, Bool.false_eq_true,
      String.reduceEq]
  · rw [h1]
  · rw [h1]
  · have hlen : ¬ (song.rating = -1 ∧ 2 ≤ (rows.headD []).length) := by
      intro hc; exact h2 hc.1
    rw [if_neg hlen]
  · have hlen : 2 ≤ (rows.headD []).length := by
      by_contra hc
      rw [List.getElem?_eq_none (by omega)] at h3
      exact Option.noConfusion h3
    rw [if_pos ⟨h2, hlen⟩, h3]
  · have hlen : ¬ (song.playcount = 0 ∧ 2 ≤ (rows.headD []).length) := by
      intro hc; exact h2 hc.1
    rw [if_neg hlen]
  · have hlen : 2 ≤ (rows.headD []).length := by
      by_contra hc
      rw [List.getElem?_eq_none (by omega)] at h3
      exact Option.noConfusion h3
    rw [if_pos ⟨h2, hlen⟩, h3]

/-- Witness for `parseFMPS_plain_over_user` at a concrete record and frame:
a plain FMPS_Rating row overrides an already-set rating, and a user rating
row is ignored because the rating is already set. -/
theorem parseFMPS_plain_over_user_witness :
    (ParseFMPSFrame "FMPS_Rating" (some [[.num (4/5)]])
      { defaultSong with rating := 1/5 }).rating = 4/5 ∧
    (ParseFMPSFrame "FMPS_Rating_User" (some [[.num (4/5), .num (2/5)]])
      { defaultSong with rating := 1/5 }).rating = 1/5 := by
  constructor
  · exact ((parseFMPS_plain_over_user { defaultSong with rating := 1/5 }
      [[.num (4/5)]] (4/5) (by simp)).1 (by simp)).1
  · exact (parseFMPS_plain_over_user { defaultSong with rating := 1/5 }
      [[.num (4/5), .num (2/5)]] (4/5) (by simp)).2.1 (by norm_num)

/-- **C1 counterexample** A parseable FMPS rating TXXX frame whose numeric
value is 0 does not shield the record from the POPM frame: starting from a
fresh record, `FMPS_Rating` = 0 together with a POPM frame of byte 0x01
resolves to the POPM-derived rating 0.20, not the FMPS-derived value 0. -/
theorem fmps_popm_precedence_counterexample :
    (readID3v2Stats [⟨"FMPS_Rating", some [[.num 0]]⟩] [⟨0x01, 0⟩]
        defaultSong).rating = ConvertPOPMRating 0x01 ∧
    ConvertPOPMRating 0x01 ≠ 0 ∧
    (parseFMPSFrames [⟨"FMPS_Rating", some [[.num 0]]⟩] defaultSong).rating = 0 := by
  have hd : ConvertPOPMRating 0x01 = 1/5 :=
    (decode_buckets 0x01).2.1 (by norm_num) (by norm_num)
  have hsw : strStartsWith "FMPS_Rating" "FMPS_" = true := by decide
  have hp : (parseFMPSFrames [⟨"FMPS_Rating", some [[FMPSVar.num 0]]⟩]
      defaultSong).rating = 0 := by
    simp [parseFMPSFrames, hsw, ParseFMPSFrame]
  refine ⟨?_, by rw [hd]; norm_num, hp⟩
  show (applyPOPM ⟨0x01, 0⟩ (parseFMPSFrames [⟨"FMPS_Rating", some [[FMPSVar.num 0]]⟩]
      defaultSong)).rating = ConvertPOPMRating 0x01
  rw [applyPOPM_rating, if_pos ⟨le_of_eq hp, by norm_num⟩]

/-- **C1 (amended)** In the ID3v2 read, FMPS TXXX frames are processed
before the POPM frame; whenever the rating resolved from the FMPS frames is
positive, the final rating is exactly that FMPS-derived value and the POPM
byte is ignored.  The POPM rating (resp. counter) changes the record only
if, after all FMPS TXXX frames have been processed, the rating is still
≤ 0 (resp. the playcount still 0) and the POPM value is > 0, in which case
the final value is POPM-derived. -/
theorem fmps_popm_precedence_amended (song : SongMetadata)
    (txxx : List TXXXFrame) (frame : POPMFrame) :
    (0 < (parseFMPSFrames txxx song).rating →
      (readID3v2Stats txxx [frame] song).rating = (parseFMPSFrames txxx song).rating) ∧
    ((readID3v2Stats txxx [frame] song).rating ≠ (parseFMPSFrames txxx song).rating →
      (parseFMPSFrames txxx song).rating ≤ 0 ∧ 0 < frame.rating ∧
      (readID3v2Stats txxx [frame] song).rating = ConvertPOPMRating frame.rating) ∧
    ((readID3v2Stats txxx [frame] song).playcount ≠ (parseFMPSFrames txxx song).playcount →
      (parseFMPSFrames txxx song).playcount = 0 ∧ 0 < frame.counter ∧
      (readID3v2Stats txxx [frame] song).playcount = frame.counter) := by
  have hread : readID3v2Stats txxx [frame] song
      = applyPOPM frame (parseFMPSFrames txxx song) := rfl
  rw [hread]
  set s1 := parseFMPSFrames txxx song with hs1
  refine ⟨?_, ?_, ?_⟩
  · intro h
    rw [applyPOPM_rating, if_neg (fun hc => absurd h (not_lt.mpr hc.1))]
  · intro h
    rw [applyPOPM_rating] at h ⊢
    by_cases hc : s1.rating ≤ 0 ∧ 0 < frame.rating
    · rw [if_pos hc] at h ⊢
      exact ⟨hc.1, hc.2, rfl⟩
    · rw [if_neg hc] at h
      exact absurd rfl h
  · intro h
    rw [applyPOPM_playcount] at h ⊢
    by_cases hc : s1.playcount ≤ 0 ∧ 0 < frame.counter
    · rw [if_pos hc] at h ⊢
      exact ⟨Nat.le_zero.mp hc.1, hc.2, rfl⟩
    · rw [if_neg hc] at h
      exact absurd rfl h

/-- Witness for `fmps_popm_precedence_amended`: with an FMPS rating of 0.8
resolved from the TXXX frames, a POPM frame with byte 0x01 and counter 7 is
ignored for the rating, and the counter is applied to the still-unset
playcount. -/
theorem fmps_popm_precedence_amended_witness :
    0 < (parseFMPSFrames [⟨"FMPS_Rating", some [[.num (4/5)]]⟩] defaultSong).rating ∧
    (readID3v2Stats [⟨"FMPS_Rating", some [[.num (4/5)]]⟩] [⟨0x01, 7⟩]
        defaultSong).rating
      = (parseFMPSFrames [⟨"FMPS_Rating", some [[.num (4/5)]]⟩] defaultSong).rating ∧
    (readID3v2Stats [⟨"FMPS_Rating", some [[.num (4/5)]]⟩] [⟨0x01, 7⟩]
        defaultSong).playcount = 7 := by
  have hsw : strStartsWith "FMPS_Rating" "FMPS_" = true := by decide
  have hp : (parseFMPSFrames [⟨"FMPS_Rating", some [[FMPSVar.num (4/5)]]⟩]
      defaultSong).rating = 4/5 := by
    simp [parseFMPSFrames, hsw, ParseFMPSFrame]
  have hpc : (parseFMPSFrames [⟨"FMPS_Rating", some [[FMPSVar.num (4/5)]]⟩]
      defaultSong).playcount = 0 := by
    simp [parseFMPSFrames, hsw, ParseFMPSFrame, defaultSong]
  have h0 : 0 < (parseFMPSFrames [⟨"FMPS_Rating", some [[FMPSVar.num (4/5)]]⟩]
      defaultSong).rating := by rw [hp]; norm_num
  refine ⟨h0,
    (fmps_popm_precedence_amended defaultSong
      [⟨"FMPS_Rating", some [[.num (4/5)]]⟩] ⟨0x01, 7⟩).1 h0, ?_⟩
  show (applyPOPM ⟨0x01, 7⟩ (parseFMPSFrames [⟨"FMPS_Rating", some [[FMPSVar.num (4/5)]]⟩]
      defaultSong)).playcount = 7
  rw [applyPOPM_playcount, if_pos ⟨le_of_eq hpc, by norm_num⟩]

/-- Value of an all-digit character list: `some n` when the list is nonempty
and all digits, else `none` (Qt rejects the whole string on any invalid
character). -/
def digitsVal (cs : List Char) : Option ℕ :=
  if cs ≠ [] ∧ cs.all Char.isDigit then
    some (cs.foldl (fun a c => 10 * a + (c.toNat - 48)) 0)
  else none

/-- `QString::toInt` (base 10) on the character list: optional sign followed
by digits; any other form yields 0. -/
def qstringToInt (cs : List Char) : Int :=
  match cs with
  | '-' :: rest =>
    match digitsVal rest with
    | some n => -(n : Int)
    | none => 0
  | '+' :: rest => ((digitsVal rest).getD 0 : ℕ)
  | _ => ((digitsVal cs).getD 0 : ℕ)

/-- Split a character list at the first occurrence of `c`
(`QString::indexOf` plus `left`/remainder): `none` when `c` is absent. -/
def splitAtFirst (c : Char) : List Char → Option (List Char × List Char)
  | [] => none
  | x :: xs =>
    if x = c then some ([], xs)
    else (splitAtFirst c xs).map (fun p => (x :: p.1, p.2))

/-- Decimal value of a character list of the form `digits`, `digits.digits`,
`digits.` or `.digits`; `none` otherwise.  Supports the decimal subset of
`QString::toFloat` (exponents are not exercised by any claim). -/
def decimalVal (cs : List Char) : Option ℚ :=
  match splitAtFirst '.' cs with
  | none => (digitsVal cs).map (fun n => (n : ℚ))
  | some (intPart, fracPart) =>
    match digitsVal intPart, digitsVal fracPart with
    | some m, some fr =>
      some ((m : ℚ) + (fr : ℚ) / (10 : ℚ) ^ fracPart.length)
    | some m, none => if fracPart = [] then some ((m : ℚ)) else none
    | none, some fr =>
      if intPart = [] then some ((fr : ℚ) / (10 : ℚ) ^ fracPart.length)
      else none
    | none, none => none

/-- `QString::toFloat` on the character list: optional sign followed by a
decimal form; any other form yields 0. -/
def qstringToFloat (cs : List Char) : ℚ :=
  match cs with
  | '-' :: rest => -((decimalVal rest).getD 0)
  | '+' :: rest => (decimalVal rest).getD 0
  | _ => (decimalVal cs).getD 0

/-- `QString::trimmed`: strip whitespace from both ends. -/
def trimChars (cs : List Char) : List Char :=
  ((cs.dropWhile Char.isWhitespace).reverse.dropWhile Char.isWhitespace).reverse

/-- The disc resolution block at the end of `TagReader::ReadFile`
(tagreader.cpp:543-552): a nonempty disc string of the form "N/M" keeps
only the left operand; otherwise the whole string is converted; an empty
string leaves the field untouched. -/
def resolveDisc (disc : List Char) (song : SongMetadata) : SongMetadata :=
  if disc ≠ [] then
    match splitAtFirst '/' disc with
    | some p => { song with disc := qstringToInt p.1 }
    | none => { song with disc := qstringToInt disc }
  else song

/-- The `SetDefault(disc)` expansion at the end of `TagReader::ReadFile`
(tagreader.cpp:576-587): an integer field still ≤ 0 becomes the sentinel
-1. -/
def setDefaultDisc (song : SongMetadata) : SongMetadata :=
  if song.disc ≤ 0 then { song with disc := -1 } else song

/-- The FMPS_RATING block of `TagReader::ParseOggTag`
(tagreader.cpp:694-696): when the field list is nonempty and the rating is
still unset, store the trimmed first value converted by
`QString::toFloat` - with no range check. -/
def parseOggRating (fmpsRatingField : List (List Char))
    (song : SongMetadata) : SongMetadata :=
  match fmpsRatingField with
  | [] => song
  | v :: _ =>
    if song.rating ≤ 0 then { song with rating := qstringToFloat (trimChars v) }
    else song

/-- The FMPS_RATING block of the APE branch of `TagReader::ReadFile`
(tagreader.cpp:222-228): when the item is present, store its value
converted by `QString::toFloat` if the rating is still unset and the value
positive - with no upper-range check. -/
def parseApeRating (present : Bool) (value : List Char)
    (song : SongMetadata) : SongMetadata :=
  if present then
    let rating := qstringToFloat value
    if song.rating ≤ 0 ∧ 0 < rating then { song with rating := rating }
    else song
  else song

/-- The FMPS rating block of the MP4 branch of `TagReader::ReadFile`
(tagreader.cpp:416-423): same guard structure as the APE branch. -/
def parseMP4Rating (present : Bool) (value : List Char)
    (song : SongMetadata) : SongMetadata :=
  if present then
    let rating := qstringToFloat value
    if song.rating ≤ 0 ∧ 0 < rating then { song with rating := rating }
    else song
  else song

/-- The spec's rating invariant: -1 (unset) or within [0, 1]. -/
def ratingInRange (song : SongMetadata) : Prop :=
  song.rating = -1 ∨ (0 ≤ song.rating ∧ song.rating ≤ 1)

lemma splitAtFirst_append_of_not_mem (c : Char) (a b : List Char)
    (h : c ∉ a) : splitAtFirst c (a ++ c :: b) = some (a, b) := by
  induction a with
  | nil => simp [splitAtFirst]
  | cons x xs ih =>
    have hx : ¬ x = c := by
      rintro rfl
      exact h (List.mem_cons_self _ _)
    have ih' := ih (fun hm => h (List.mem_cons_of_mem x hm))
    show (if x = c then some ([], xs ++ c :: b)
      else (splitAtFirst c (xs ++ c :: b)).map fun p => (x :: p.1, p.2))
        = some (x :: xs, b)
    rw [if_neg hx, ih']
    rfl

/-- **C8** Disc-number resolution at the end of `ReadFile`: "2/10" resolves
to disc 2, "7" to disc 7, the empty string leaves disc at the sentinel -1;
in general an "N/M" form keeps only the part left of the first slash. -/
theorem disc_resolution :
    (setDefaultDisc (resolveDisc "2/10".toList defaultSong)).disc = 2 ∧
    (setDefaultDisc (resolveDisc "7".toList defaultSong)).disc = 7 ∧
    (setDefaultDisc (resolveDisc "".toList defaultSong)).disc = -1 ∧
    (∀ (a b : List Char) (song : SongMetadata), '/' ∉ a →
      resolveDisc (a ++ '/' :: b) song = { song with disc := qstringToInt a }) := by
  refine ⟨by decide, by decide, by decide, ?_⟩
  intro a b song h
  unfold resolveDisc
  rw [if_pos (by simp), splitAtFirst_append_of_not_mem '/' a b h]

/-- Witness for `disc_resolution`: the general "N/M" clause evaluated at
"3/4". -/
theorem disc_resolution_witness :
    ('/' ∉ "3".toList) ∧
    resolveDisc ("3".toList ++ '/' :: "4".toList) defaultSong
      = { defaultSong with disc := qstringToInt "3".toList } :=
  ⟨by decide, disc_resolution.2.2.2 "3".toList "4".toList defaultSong (by decide)⟩

lemma head?_mem_list {α : Type} {l : List α} {x : α}
    (h : l.head? = some x) : x ∈ l := by
  cases l with
  | nil => simp at h
  | cons a as =>
    simp only [List.head?_cons, Option.some.injEq] at h
    subst h
    exact List.mem_cons_self _ _

lemma getElem1_mem_list {α : Type} {l : List α} {x : α}
    (h : l[1]? = some x) : x ∈ l := by
  cases l with
  | nil => simp at h
  | cons a as =>
    cases as with
    | nil => simp at h
    | cons b bs =>
      simp only [List.getElem?_cons_succ, List.getElem?_cons_zero,
        Option.some.injEq] at h
      subst h
      exact List.mem_cons_of_mem _ (List.mem_cons_self _ _)

/-- Every rating `ParseFMPSFrame` can store comes from the first row of the
parse result; otherwise the rating is untouched. -/
lemma parseFMPS_rating_cases (name : String) (rows : List (List FMPSVar))
    (song : SongMetadata) :
    (ParseFMPSFrame name (some rows) song).rating = song.rating ∨
    ∃ d : ℚ, FMPSVar.num d ∈ rows.headD [] ∧
      (ParseFMPSFrame name (some rows) song).rating = d := by
  simp only [ParseFMPSFrame]
  by_cases he : rows.isEmpty
  · rw [if_pos he]; exact Or.inl rfl
  rw [if_neg he]
  by_cases h1 : name = "FMPS_Rating"
  · rw [if_pos h1]
    rcases hh : (rows.headD []).head? with _ | v
    · exact Or.inl rfl
    · cases v with
      | num d => exact Or.inr ⟨d, head?_mem_list hh, rfl⟩
      | str s => exact Or.inl rfl
  rw [if_neg h1]
  by_cases h2 : name = "FMPS_Rating_User"
  · rw [if_pos h2]
    by_cases hc : song.rating = -1 ∧ 2 ≤ (rows.headD []).length
    · rw [if_pos hc]
      rcases hh : (rows.headD [])[1]? with _ | v
      · exact Or.inl rfl
      · cases v with
        | num d => exact Or.inr ⟨d, getElem1_mem_list hh, rfl⟩
        | str s => exact Or.inl rfl
    · rw [if_neg hc]; exact Or.inl rfl
  rw [if_neg h2]
  by_cases h3 : name = "FMPS_PlayCount"
  · rw [if_pos h3]
    rcases hh : (rows.headD []).head? with _ | v
    · exact Or.inl rfl
    · cases v with
      | num d => exact Or.inl rfl
      | str s => exact Or.inl rfl
  rw [if_neg h3]
  by_cases h4 : name = "FMPS_PlayCount_User"
  · rw [if_pos h4]
    by_cases hc : song.playcount = 0 ∧ 2 ≤ (rows.headD []).length
    · rw [if_pos hc]
      rcases hh : (rows.headD [])[1]? with _ | v
      · exact Or.inl rfl
      · cases v with
        | num d => exact Or.inl rfl
        | str s => exact Or.inl rfl
    · rw [if_neg hc]; exact Or.inl rfl
  rw [if_neg h4]
  by_cases h5 : name = "FMPS_Rating_Amarok_Score"
  · rw [if_pos h5]
    rcases hh : (rows.headD []).head? with _ | v
    · exact Or.inl rfl
    · cases v with
      | num d => exact Or.inl rfl
      | str s => exact Or.inl rfl
  · rw [if_neg h5]; exact Or.inl rfl

lemma convertPOPM_rating_bounds (r : Int) :
    0 ≤ ConvertPOPMRating r ∧ ConvertPOPMRating r ≤ 1 := by
  refine ⟨?_, ?_⟩ <;> (unfold ConvertPOPMRating; split_ifs <;> norm_num)

/-- **C7 counterexample** The Vorbis FMPS_RATING site stores the parsed
value without any range check: the comment value "2" yields a record whose
rating is 2, which is neither -1 nor within [0, 1]. -/
theorem rating_range_counterexample :
    (parseOggRating ["2".toList] defaultSong).rating = 2 ∧
    ¬ ratingInRange (parseOggRating ["2".toList] defaultSong) := by
  have ht : trimChars "2".toList = "2".toList := by decide
  have hv : qstringToFloat "2".toList = 2 := by
    show (decimalVal "2".toList).getD 0 = 2
    rw [show decimalVal "2".toList = some ((2 : ℕ) : ℚ) from by
      unfold decimalVal
      rw [show splitAtFirst '.' "2".toList = none from by decide,
          show digitsVal "2".toList = some 2 from by decide]
      rfl]
    norm_num
  have hr : (parseOggRating ["2".toList] defaultSong).rating = 2 := by
    show (if defaultSong.rating ≤ 0 then
        { defaultSong with rating := qstringToFloat (trimChars "2".toList) }
      else defaultSong).rating = 2
    rw [if_pos (by norm_num [defaultSong]), ht]
    show qstringToFloat "2".toList = 2
    exact hv
  refine ⟨hr, ?_⟩
  unfold ratingInRange
  rw [hr]
  norm_num

/-- **C7 (amended)** None of the native FMPS rating sites clamps or rejects
the supplied value; the invariant "rating is -1 or within [0,1]" is
preserved by every rating assignment site only under the assumption that
the externally supplied FMPS values themselves lie within [0,1]
(POPM-derived values are always within [0,1] by the decode table). -/
theorem rating_range_amended :
    (∀ (song : SongMetadata) (v : List Char) (rest : List (List Char)),
      ratingInRange song →
      0 ≤ qstringToFloat (trimChars v) → qstringToFloat (trimChars v) ≤ 1 →
      ratingInRange (parseOggRating (v :: rest) song)) ∧
    (∀ (song : SongMetadata) (present : Bool) (value : List Char),
      ratingInRange song → qstringToFloat value ≤ 1 →
      ratingInRange (parseApeRating present value song)) ∧
    (∀ (song : SongMetadata) (present : Bool) (value : List Char),
      ratingInRange song → qstringToFloat value ≤ 1 →
      ratingInRange (parseMP4Rating present value song)) ∧
    (∀ (song : SongMetadata) (name : String) (rows : List (List FMPSVar)),
      (∀ row ∈ rows, ∀ q : ℚ, FMPSVar.num q ∈ row → 0 ≤ q ∧ q ≤ 1) →
      ratingInRange song →
      ratingInRange (ParseFMPSFrame name (some rows) song)) ∧
    (∀ (song : SongMetadata) (frame : POPMFrame),
      ratingInRange song → ratingInRange (applyPOPM frame song)) := by
  refine ⟨?_, ?_, ?_, ?_, ?_⟩
  · intro song v rest hinv h0 h1
    show ratingInRange (if song.rating ≤ 0 then
        { song with rating := qstringToFloat (trimChars v) } else song)
    by_cases hc : song.rating ≤ 0
    · rw [if_pos hc]; exact Or.inr ⟨h0, h1⟩
    · rw [if_neg hc]; exact hinv
  · intro song present value hinv h1
    cases present with
    | false => exact hinv
    | true =>
      show ratingInRange (if song.rating ≤ 0 ∧ 0 < qstringToFloat value then
          { song with rating := qstringToFloat value } else song)
      by_cases hc : song.rating ≤ 0 ∧ 0 < qstringToFloat value
      · rw [if_pos hc]; exact Or.inr ⟨le_of_lt hc.2, h1⟩
      · rw [if_neg hc]; exact hinv
  · intro song present value hinv h1
    cases present with
    | false => exact hinv
    | true =>
      show ratingInRange (if song.rating ≤ 0 ∧ 0 < qstringToFloat value then
          { song with rating := qstringToFloat value } else song)
      by_cases hc : song.rating ≤ 0 ∧ 0 < qstringToFloat value
      · rw [if_pos hc]; exact Or.inr ⟨le_of_lt hc.2, h1⟩
      · rw [if_neg hc]; exact hinv
  · intro song name rows hbound hinv
    rcases parseFMPS_rating_cases name rows song with heq | ⟨d, hmem, heq⟩
    · unfold ratingInRange at hinv ⊢
      rw [heq]
      exact hinv
    · have hrow : rows.headD [] ∈ rows := by
        cases rows with
        | nil => simp at hmem
        | cons r rs => exact List.mem_cons_self _ _
      obtain ⟨hq0, hq1⟩ := hbound _ hrow d hmem
      unfold ratingInRange
      rw [heq]
      exact Or.inr ⟨hq0, hq1⟩
  · intro song frame hinv
    unfold ratingInRange at hinv ⊢
    rw [applyPOPM_rating]
    by_cases hc : song.rating ≤ 0 ∧ 0 < frame.rating
    · rw [if_pos hc]
      exact Or.inr (convertPOPM_rating_bounds frame.rating)
    · rw [if_neg hc]
      exact hinv

/-- Witness for `rating_range_amended`: the POPM site applied to a fresh
record with the maximal byte keeps the invariant. -/
theorem rating_range_amended_witness :
    ratingInRange defaultSong ∧
    ratingInRange (applyPOPM ⟨0xFF, 3⟩ defaultSong) :=
  ⟨Or.inl rfl, rating_range_amended.2.2.2.2 defaultSong ⟨0xFF, 3⟩ (Or.inl rfl)⟩

/-- A native tag slot value: text, or a number whose decimal rendering is
kept structural (`QString::number` / `TagLib::String::number` output is
never inspected by any claim). -/
inductive TagValue where
  | str (s : String)
  | num (q : ℚ)
  | int (n : Int)
  deriving Repr, DecidableEq

/-- The basic (abstract `TagLib::Tag`) fields shared by every format
family. -/
structure Basics where
  title : String
  artist : String
  album : String
  genre : String
  comment : String
  year : Int
  track : Int
  deriving Repr, DecidableEq

/-- An ID3v2 tag, restricted to the frame kinds the write paths touch.  The
frame map is kept as a flat association list (TagLib groups frames by id;
nothing here depends on cross-id order). -/
structure ID3v2Store where
  basic : Basics
  textFrames : List (String × TagValue)
  uslt : List TagValue
  txxx : List (String × TagValue)
  popm : List POPMFrame
  deriving Repr, DecidableEq

/-- A Xiph/Vorbis comment block (used for both FLAC and Ogg families). -/
structure XiphStore where
  basic : Basics
  fields : List (String × TagValue)
  deriving Repr, DecidableEq

/-- An ASF attribute map. -/
structure AsfStore where
  basic : Basics
  attributes : List (String × TagValue)
  deriving Repr, DecidableEq

/-- An MP4 atom item map. -/
structure MP4Store where
  basic : Basics
  items : List (String × TagValue)
  deriving Repr, DecidableEq

/-- An APE item map (used for APE, MPC and WavPack families). -/
structure ApeStore where
  basic : Basics
  items : List (String × TagValue)
  deriving Repr, DecidableEq

/-- An opened tag container, dispatched by format family exactly as the
chains of dynamic casts in the save paths do; `other` is any family none of
the casts match (the statistics and rating saves have nothing to write
there). -/
inductive TagFile where
  | mpeg (s : ID3v2Store)
  | flac (s : XiphStore)
  | xiph (s : XiphStore)
  | asf (s : AsfStore)
  | mp4 (s : MP4Store)
  | ape (s : ApeStore)
  | other (basic : Basics)
  deriving Repr, DecidableEq

/-- Remove the first entry with the given key (TagLib `removeFrame` of the
frame located by `UserTextIdentificationFrame::find`). -/
def removeFirstKey (key : String) : List (String × TagValue) → List (String × TagValue)
  | [] => []
  | (k, v) :: rest => if k = key then rest else (k, v) :: removeFirstKey key rest

/-- `TagReader::SetUserTextFrame` (tagreader.cpp:1120-1137): drop the first
existing TXXX frame with the description, then append a fresh frame. -/
def SetUserTextFrame (description : String) (value : TagValue)
    (txxx : List (String × TagValue)) : List (String × TagValue) :=
  removeFirstKey description txxx ++ [(description, value)]

/-- Replace the value of the first entry with the given key. -/
def setFirstKey (key : String) (value : TagValue) :
    List (String × TagValue) → List (String × TagValue)
  | [] => []
  | (k, v) :: rest =>
    if k = key then (k, value) :: rest else (k, v) :: setFirstKey key value rest

/-- `TagReader::SetTextFrame` (tagreader.cpp:1145-1176), net effect on the
frame map: the first frame of the id gets the new text (re-derived from the
old frame's serialized form, so later frames of the id survive unchanged);
when no frame existed a fresh one is created. -/
def SetTextFrame (id : String) (value : TagValue)
    (frames : List (String × TagValue)) : List (String × TagValue) :=
  if frames.any (fun p => p.1 = id) then setFirstKey id value frames
  else frames ++ [(id, value)]

/-- `TagReader::SetUnsyncLyricsFrame` (tagreader.cpp:1178-1209): same
replace-first-or-create scheme for USLT frames. -/
def SetUnsyncLyricsFrame (value : TagValue) (uslt : List TagValue) :
    List TagValue :=
  match uslt with
  | [] => [value]
  | _ :: rest => value :: rest

/-- `TagReader::GetPOPMFrameFromTag` (tagreader.cpp:1443-1458) followed by
`setCounter`: reuse the first POPM frame, or create a fresh one (TagLib
default: rating byte 0, counter 0) when none exists. -/
def setPOPMCounter (c : ℕ) : List POPMFrame → List POPMFrame
  | [] => [⟨0, c⟩]
  | f :: rest => ⟨f.rating, c⟩ :: rest

/-- `TagReader::GetPOPMFrameFromTag` followed by `setRating`. -/
def setPOPMRating (r : Int) : List POPMFrame → List POPMFrame
  | [] => [⟨r, 0⟩]
  | f :: rest => ⟨r, f.counter⟩ :: rest

/-- Remove every entry with the given key. -/
def removeAllKey (key : String) : List (String × TagValue) → List (String × TagValue)
  | [] => []
  | (k, v) :: rest =>
    if k = key then removeAllKey key rest else (k, v) :: removeAllKey key rest

/-- `Ogg::XiphComment::addField` with replace = true: remove every field
with the key, then append the new value. -/
def xiphAddField (key : String) (value : TagValue)
    (fields : List (String × TagValue)) : List (String × TagValue) :=
  removeAllKey key fields ++ [(key, value)]

/-- `Ogg::XiphComment::removeFields`. -/
def xiphRemoveFields (key : String) (fields : List (String × TagValue)) :
    List (String × TagValue) :=
  removeAllKey key fields

/-- `ASF::Tag::addAttribute`: appends to the attribute list of the key. -/
def asfAddAttribute (key : String) (value : TagValue)
    (attributes : List (String × TagValue)) : List (String × TagValue) :=
  attributes ++ [(key, value)]

/-- `MP4::Tag::setItem`: one item per key (map semantics). -/
def mp4SetItem (key : String) (value : TagValue)
    (items : List (String × TagValue)) : List (String × TagValue) :=
  removeAllKey key items ++ [(key, value)]

/-- `APE::Tag::setItem` / `addValue` with replace = true. -/
def apeSetItem (key : String) (value : TagValue)
    (items : List (String × TagValue)) : List (String × TagValue) :=
  removeAllKey key items ++ [(key, value)]

def kMP4_FMPS_Rating_ID : String := "----:com.apple.iTunes:FMPS_Rating"

def kMP4_FMPS_Playcount_ID : String := "----:com.apple.iTunes:FMPS_Playcount"

def kMP4_FMPS_Score_ID : String := "----:com.apple.iTunes:FMPS_Rating_Amarok_Score"

/-- `TagReader::SetVorbisComments` (tagreader.cpp:714-748): the basic-field
companion block written on a full save. -/
def SetVorbisComments (song : SongMetadata)
    (fields : List (String × TagValue)) : List (String × TagValue) :=
  let f := xiphAddField "COMPOSER" (.str song.composer) fields
  let f := xiphAddField "PERFORMER" (.str song.performer) f
  let f := xiphAddField "CONTENT GROUP" (.str song.grouping) f
  let f := xiphAddField "BPM"
    (if song.bpm ≤ -1 then .str "" else .num song.bpm) f
  let f := xiphAddField "DISCNUMBER"
    (if song.disc ≤ 0 then .str "" else .int song.disc) f
  let f := xiphAddField "COMPILATION"
    (if song.compilation then .int 1 else .str "") f
  let f := xiphAddField "ALBUMARTIST" (.str song.albumartist) f
  let f := xiphRemoveFields "ALBUM ARTIST" f
  let f := xiphAddField "LYRICS" (.str song.lyrics) f
  xiphRemoveFields "UNSYNCEDLYRICS" f

/-- `TagReader::SetFMPSStatisticsVorbisComments` (tagreader.cpp:750-760):
playcount and score fields, each written only when nonzero. -/
def SetFMPSStatisticsVorbisComments (song : SongMetadata)
    (fields : List (String × TagValue)) : List (String × TagValue) :=
  let f :=
    if song.playcount ≠ 0 then
      xiphAddField "FMPS_PLAYCOUNT" (.int song.playcount) fields
    else fields
  if song.score ≠ 0 then
    xiphAddField "FMPS_RATING_AMAROK_SCORE"
      (.num ((song.score : ℚ) / 100)) f
  else f

/-- `TagReader::SetFMPSRatingVorbisComments` (tagreader.cpp:762-768). -/
def SetFMPSRatingVorbisComments (song : SongMetadata)
    (fields : List (String × TagValue)) : List (String × TagValue) :=
  xiphAddField "FMPS_RATING" (.num song.rating) fields

/-- Outcome of a save operation: the returned boolean, whether an open of
the container was attempted, and the mutated container (none when nothing
was opened or the open failed). -/
structure SaveResult where
  ok : Bool
  opened : Bool
  file : Option TagFile
  deriving Repr, DecidableEq

/-- The per-family mutation of `TagReader::SaveFile` (tagreader.cpp:821-914)
on an opened container: basic fields through the abstract tag, then the
family-specific extended block. -/
def saveFileApply (song : SongMetadata) (f : TagFile) : TagFile :=
  let b : Basics :=
    ⟨song.title, song.artist, song.album, song.genre, song.comment,
      if song.year ≤ -1 then 0 else song.year,
      if song.track ≤ -1 then 0 else song.track⟩
  match f with
  | .mpeg s =>
    let tf := SetTextFrame "TPOS"
      (if song.disc ≤ 0 then .str "" else .int song.disc) s.textFrames
    let tf := SetTextFrame "TBPM"
      (if song.bpm ≤ -1 then .str "" else .num song.bpm) tf
    let tf := SetTextFrame "TCOM" (.str song.composer) tf
    let tf := SetTextFrame "TIT1" (.str song.grouping) tf
    let tf := SetTextFrame "TOPE" (.str song.performer) tf
    let us := SetUnsyncLyricsFrame (.str song.lyrics) s.uslt
    let tf := SetTextFrame "TPE2" (.str song.albumartist) tf
    let tf := SetTextFrame "TCMP"
      (if song.compilation then .int 1 else .str "") tf
    .mpeg { s with basic := b, textFrames := tf, uslt := us }
  | .flac s => .flac { s with basic := b, fields := SetVorbisComments song s.fields }
  | .xiph s => .xiph { s with basic := b, fields := SetVorbisComments song s.fields }
  | .asf s => .asf { s with basic := b }
  | .mp4 s =>
    let it := mp4SetItem "disk"
      (.int (if song.disc ≤ -1 then 0 else song.disc)) s.items
    let it := mp4SetItem "tmpo"
      (if song.bpm ≤ -1 then .str "0" else .num song.bpm) it
    let it := mp4SetItem "©wrt" (.str song.composer) it
    let it := mp4SetItem "©grp" (.str song.grouping) it
    let it := mp4SetItem "©lyr" (.str song.lyrics) it
    let it := mp4SetItem "aART" (.str song.albumartist) it
    let it := mp4SetItem "cpil" (.str (if song.compilation then "1" else "0")) it
    .mp4 { s with basic := b, items := it }
  | .ape s =>
    let it := apeSetItem "disc"
      (if song.disc ≤ 0 then .str "" else .int song.disc) s.items
    let it := apeSetItem "bpm"
      (if song.bpm ≤ -1 then .str "" else .num song.bpm) it
    let it := apeSetItem "composer" (.str song.composer) it
    let it := apeSetItem "grouping" (.str song.grouping) it
    let it := apeSetItem "performer" (.str song.performer) it
    let it := apeSetItem "album artist" (.str song.albumartist) it
    let it := apeSetItem "lyrics" (.str song.lyrics) it
    let it := apeSetItem "compilation"
      (if song.compilation then .int 1 else .str "") it
    .ape { s with basic := b, items := it }
  | .other _ => .other b

/-- `TagReader::SaveFile` (tagreader.cpp:810-926).  `filenameNull` models
`filename.isNull()`, `avail` the opened container (`none` when the file
cannot be opened), `saveOk` the collaborator's `fileref->save()` result. -/
def SaveFile (filenameNull : Bool) (avail : Option TagFile) (saveOk : Bool)
    (song : SongMetadata) : SaveResult :=
  if filenameNull then ⟨false, false, none⟩
  else
    match avail with
    | none => ⟨false, true, none⟩
    | some f => ⟨saveOk, true, some (saveFileApply song f)⟩

/-- The `saveApeSongStats` lambda of `TagReader::SaveSongStatisticsToFile`
(tagreader.cpp:939-950). -/
def saveApeSongStats (song : SongMetadata)
    (items : List (String × TagValue)) : List (String × TagValue) :=
  let it :=
    if song.score ≠ 0 then
      apeSetItem "FMPS_Rating_Amarok_Score"
        (.num ((song.score : ℚ) / 100)) items
    else items
  if song.playcount ≠ 0 then
    apeSetItem "FMPS_PlayCount" (.int song.playcount) it
  else it

/-- The per-family mutation of `TagReader::SaveSongStatisticsToFile`
(tagreader.cpp:952-1013). -/
def statsSaveApply (song : SongMetadata) : TagFile → TagFile
  | .mpeg s =>
    let s1 :=
      if song.playcount ≠ 0 then
        { s with
            txxx := SetUserTextFrame "FMPS_PlayCount" (.int song.playcount) s.txxx,
            popm := setPOPMCounter song.playcount s.popm }
      else s
    let s2 :=
      if song.score ≠ 0 then
        { s1 with
            txxx := SetUserTextFrame "FMPS_Rating_Amarok_Score"
              (.num ((song.score : ℚ) / 100)) s1.txxx }
      else s1
    .mpeg s2
  | .flac s =>
    .flac { s with fields := SetFMPSStatisticsVorbisComments song s.fields }
  | .xiph s =>
    .xiph { s with fields := SetFMPSStatisticsVorbisComments song s.fields }
  | .asf s =>
    let a :=
      if song.playcount ≠ 0 then
        asfAddAttribute "FMPS/Playcount" (.int song.playcount) s.attributes
      else s.attributes
    let a :=
      if song.score ≠ 0 then
        asfAddAttribute "FMPS/Rating_Amarok_Score"
          (.num ((song.score : ℚ) / 100)) a
      else a
    .asf { s with attributes := a }
  | .mp4 s =>
    let it :=
      if song.score ≠ 0 then
        mp4SetItem kMP4_FMPS_Score_ID (.num ((song.score : ℚ) / 100)) s.items
      else s.items
    let it :=
      if song.playcount ≠ 0 then
        mp4SetItem kMP4_FMPS_Playcount_ID (.int song.playcount) it
      else it
    .mp4 { s with items := it }
  | .ape s => .ape { s with items := saveApeSongStats song s.items }
  | .other b => .other b

/-- `TagReader::SaveSongStatisticsToFile` (tagreader.cpp:928-1024): null
filename and unopenable container fail first; a family with no statistics
slot returns success before any save is attempted. -/
def SaveSongStatisticsToFile (filenameNull : Bool) (avail : Option TagFile)
    (saveOk : Bool) (song : SongMetadata) : SaveResult :=
  if filenameNull then ⟨false, false, none⟩
  else
    match avail with
    | none => ⟨false, true, none⟩
    | some (.other b) => ⟨true, true, some (.other b)⟩
    | some f => ⟨saveOk, true, some (statsSaveApply song f)⟩

/-- The per-family mutation of `TagReader::SaveSongRatingToFile`
(tagreader.cpp:1045-1092). -/
def ratingSaveApply (song : SongMetadata) : TagFile → TagFile
  | .mpeg s =>
    .mpeg { s with
      txxx := SetUserTextFrame "FMPS_Rating" (.num song.rating) s.txxx,
      popm := setPOPMRating (ConvertToPOPMRating song.rating) s.popm }
  | .flac s =>
    .flac { s with fields := SetFMPSRatingVorbisComments song s.fields }
  | .xiph s =>
    .xiph { s with fields := SetFMPSRatingVorbisComments song s.fields }
  | .asf s =>
    .asf { s with attributes := asfAddAttribute "FMPS/Rating" (.num song.rating) s.attributes }
  | .mp4 s =>
    .mp4 { s with items := mp4SetItem kMP4_FMPS_Rating_ID (.num song.rating) s.items }
  | .ape s =>
    .ape { s with items := apeSetItem "FMPS_Rating" (.num song.rating) s.items }
  | .other b => .other b

/-- `TagReader::SaveSongRatingToFile` (tagreader.cpp:1026-1107): the null
filename fails first; an unrated record (rating < 0) returns success before
the container is even opened; a family with no rating slot returns success
before any save is attempted. -/
def SaveSongRatingToFile (filenameNull : Bool) (avail : Option TagFile)
    (saveOk : Bool) (song : SongMetadata) : SaveResult :=
  if filenameNull then ⟨false, false, none⟩
  else if song.rating < 0 then ⟨true, false, none⟩
  else
    match avail with
    | none => ⟨false, true, none⟩
    | some (.other b) => ⟨true, true, some (.other b)⟩
    | some f => ⟨saveOk, true, some (ratingSaveApply song f)⟩

/-- Modelled from the spec: when the tag library cannot open the file,
`TagReader::ReadFile` (tagreader.cpp:171-178) falls through to the GME
fallback (gmereader.cpp is not part of src/); per spec section 7 a
missing/unreadable/unsupported file yields a record with all fields at
defaults, in particular valid = false. -/
def ReadFileUnavailable : SongMetadata := defaultSong

/-- Input to a read: nothing (container unavailable), or an opened MPEG
file with its abstract tag (when present), TPOS disc text, TXXX and POPM
frames. -/
inductive ReadInput where
  | unavailable
  | mpegFile (tagPresent : Bool) (b : Basics) (tpos : Option (List Char))
      (txxx : List TXXXFrame) (popm : List POPMFrame)

/-- `TagReader::ReadFile` (tagreader.cpp:134-588) for the modelled inputs:
basics from the abstract tag (which also sets valid = true), the ID3v2
statistics pass, then disc resolution and the SetDefault sweep. -/
def ReadFile : ReadInput → SongMetadata
  | .unavailable => ReadFileUnavailable
  | .mpegFile tagPresent b tpos txxx popm =>
    let s1 :=
      if tagPresent then
        { defaultSong with
            title := b.title, artist := b.artist, album := b.album,
            genre := b.genre, year := b.year, track := b.track, valid := true }
      else defaultSong
    let disc : List Char := ((tpos.map trimChars).getD [])
    let s2 := readID3v2Stats txxx popm s1
    setDefaultDisc (resolveDisc disc s2)

/-- The values stored under one key of a keyed store, in order. -/
def entriesFor (k : String) : List (String × TagValue) → List TagValue
  | [] => []
  | (k', v) :: rest =>
    if k' = k then v :: entriesFor k rest else entriesFor k rest

lemma entriesFor_append (k : String) (l1 l2 : List (String × TagValue)) :
    entriesFor k (l1 ++ l2) = entriesFor k l1 ++ entriesFor k l2 := by
  induction l1 with
  | nil => rfl
  | cons p rest ih =>
    obtain ⟨k', v⟩ := p
    by_cases h : k' = k <;> simp [entriesFor, h, ih]

lemma entriesFor_single_ne (k key : String) (v : TagValue) (h : k ≠ key) :
    entriesFor k [(key, v)] = [] := by
  simp [entriesFor, h.symm]

lemma entriesFor_removeFirstKey (k key : String) (h : k ≠ key)
    (l : List (String × TagValue)) :
    entriesFor k (removeFirstKey key l) = entriesFor k l := by
  induction l with
  | nil => rfl
  | cons p rest ih =>
    obtain ⟨k', v⟩ := p
    have hne : ¬ key = k := fun e => h e.symm
    by_cases hk : k' = key
    · simp [removeFirstKey, hk, entriesFor, hne, ih]
    · by_cases hkk : k' = k <;>
        simp [removeFirstKey, hk, entriesFor, hkk, ih, h, hne]

lemma entriesFor_removeAllKey (k key : String) (h : k ≠ key)
    (l : List (String × TagValue)) :
    entriesFor k (removeAllKey key l) = entriesFor k l := by
  induction l with
  | nil => rfl
  | cons p rest ih =>
    obtain ⟨k', v⟩ := p
    have hne : ¬ key = k := fun e => h e.symm
    by_cases hk : k' = key
    · simp [removeAllKey, hk, entriesFor, hne, ih]
    · by_cases hkk : k' = k <;>
        simp [removeAllKey, hk, entriesFor, hkk, ih, h, hne]

lemma entriesFor_SetUserTextFrame (k descr : String) (v : TagValue)
    (h : k ≠ descr) (l : List (String × TagValue)) :
    entriesFor k (SetUserTextFrame descr v l) = entriesFor k l := by
  unfold SetUserTextFrame
  rw [entriesFor_append, entriesFor_removeFirstKey k descr h,
      entriesFor_single_ne k descr v h, List.append_nil]

lemma entriesFor_xiphAddField (k key : String) (v : TagValue) (h : k ≠ key)
    (l : List (String × TagValue)) :
    entriesFor k (xiphAddField key v l) = entriesFor k l := by
  unfold xiphAddField
  rw [entriesFor_append, entriesFor_removeAllKey k key h,
      entriesFor_single_ne k key v h, List.append_nil]

lemma entriesFor_mp4SetItem (k key : String) (v : TagValue) (h : k ≠ key)
    (l : List (String × TagValue)) :
    entriesFor k (mp4SetItem key v l) = entriesFor k l := by
  unfold mp4SetItem
  rw [entriesFor_append, entriesFor_removeAllKey k key h,
      entriesFor_single_ne k key v h, List.append_nil]

lemma entriesFor_apeSetItem (k key : String) (v : TagValue) (h : k ≠ key)
    (l : List (String × TagValue)) :
    entriesFor k (apeSetItem key v l) = entriesFor k l := by
  unfold apeSetItem
  rw [entriesFor_append, entriesFor_removeAllKey k key h,
      entriesFor_single_ne k key v h, List.append_nil]

lemma entriesFor_asfAddAttribute (k key : String) (v : TagValue)
    (h : k ≠ key) (l : List (String × TagValue)) :
    entriesFor k (asfAddAttribute key v l) = entriesFor k l := by
  unfold asfAddAttribute
  rw [entriesFor_append, entriesFor_single_ne k key v h, List.append_nil]

/-- The rating a subsequent ID3v2 read would draw from the POPM frames: the
first frame's byte contributes only when positive (tagreader.cpp:369),
otherwise the rating stays unset. -/
def popmReadRating (popm : List POPMFrame) : ℚ :=
  match popm.head? with
  | some f => if 0 < f.rating then ConvertPOPMRating f.rating else -1
  | none => -1

lemma popmReadRating_setCounter (c : ℕ) (popm : List POPMFrame) :
    popmReadRating (setPOPMCounter c popm) = popmReadRating popm := by
  cases popm with
  | nil =>
    show popmReadRating [⟨0, c⟩] = popmReadRating []
    simp [popmReadRating]
  | cons f rest => rfl

/-- The basic fields of a container. -/
def basicsOf : TagFile → Basics
  | .mpeg s => s.basic
  | .flac s => s.basic
  | .xiph s => s.basic
  | .asf s => s.basic
  | .mp4 s => s.basic
  | .ape s => s.basic
  | .other b => b

/-- The rating-bearing observables of a container: the values stored under
the family's FMPS rating key, and (ID3v2 only) the rating readable from the
POPM frames. -/
def ratingSlots : TagFile → List TagValue × ℚ
  | .mpeg s => (entriesFor "FMPS_Rating" s.txxx, popmReadRating s.popm)
  | .flac s => (entriesFor "FMPS_RATING" s.fields, -1)
  | .xiph s => (entriesFor "FMPS_RATING" s.fields, -1)
  | .asf s => (entriesFor "FMPS/Rating" s.attributes, -1)
  | .mp4 s => (entriesFor kMP4_FMPS_Rating_ID s.items, -1)
  | .ape s => (entriesFor "FMPS_Rating" s.items, -1)
  | .other _ => ([], -1)

/-- **C5** For every record whose canonical rating is negative (unrated,
sentinel -1), `SaveSongRatingToFile` returns success without opening the
container and without writing anything: no extended rating key and no POPM
byte is created or modified. -/
theorem ratingSave_unrated_noop (song : SongMetadata) (avail : Option TagFile)
    (saveOk : Bool) (h : song.rating < 0) :
    SaveSongRatingToFile false avail saveOk song = ⟨true, false, none⟩ := by
  unfold SaveSongRatingToFile
  rw [if_neg (by simp), if_pos h]

/-- Witness for `ratingSave_unrated_noop`: the fresh record (rating -1)
against an unopened container. -/
theorem ratingSave_unrated_noop_witness :
    defaultSong.rating < 0 ∧
    SaveSongRatingToFile false none true defaultSong = ⟨true, false, none⟩ :=
  ⟨by norm_num [defaultSong], ratingSave_unrated_noop defaultSong none true
    (by norm_num [defaultSong])⟩

/-- **C6** For every record and container, the statistics-only save touches
only the playcount and score extended encodings: the basic fields and the
rating observables (FMPS rating entries and the rating readable from POPM)
are unchanged, and a family with none of these slots returns success with
the container untouched. -/
theorem statsSave_touches_only_stats (song : SongMetadata) (f : TagFile)
    (saveOk : Bool) :
    basicsOf (statsSaveApply song f) = basicsOf f ∧
    ratingSlots (statsSaveApply song f) = ratingSlots f ∧
    (SaveSongStatisticsToFile false (some f) saveOk song).file
      = some (statsSaveApply song f) ∧
    (∀ b : Basics, f = .other b →
      SaveSongStatisticsToFile false (some f) saveOk song
        = ⟨true, true, some f⟩) := by
  have hne1 : ("FMPS_Rating" : String) ≠ "FMPS_PlayCount" := by decide
  have hne2 : ("FMPS_Rating" : String) ≠ "FMPS_Rating_Amarok_Score" := by decide
  have hne3 : ("FMPS_RATING" : String) ≠ "FMPS_PLAYCOUNT" := by decide
  have hne4 : ("FMPS_RATING" : String) ≠ "FMPS_RATING_AMAROK_SCORE" := by decide
  have hne5 : ("FMPS/Rating" : String) ≠ "FMPS/Playcount" := by decide
  have hne6 : ("FMPS/Rating" : String) ≠ "FMPS/Rating_Amarok_Score" := by decide
  have hne7 : kMP4_FMPS_Rating_ID ≠ kMP4_FMPS_Score_ID := by decide
  have hne8 : kMP4_FMPS_Rating_ID ≠ kMP4_FMPS_Playcount_ID := by decide
  cases f with
  | mpeg s =>
    refine ⟨?_, ?_, ?_, fun b hb => by simp at hb⟩
    · by_cases hp : song.playcount ≠ 0 <;> by_cases hs : song.score ≠ 0 <;>
        simp [statsSaveApply, basicsOf, hp, hs]
    · by_cases hp : song.playcount ≠ 0 <;> by_cases hs : song.score ≠ 0 <;>
        simp [statsSaveApply, ratingSlots, hp, hs,
          entriesFor_SetUserTextFrame _ _ _ hne1,
          entriesFor_SetUserTextFrame _ _ _ hne2,
          popmReadRating_setCounter]
    · unfold SaveSongStatisticsToFile
      rw [if_neg (by simp)]
  | flac s =>
    refine ⟨rfl, ?_, ?_, fun b hb => by simp at hb⟩
    · unfold statsSaveApply ratingSlots SetFMPSStatisticsVorbisComments
      by_cases hp : song.playcount ≠ 0 <;> by_cases hs : song.score ≠ 0 <;>
        simp [hp, hs, entriesFor_xiphAddField _ _ _ hne3,
          entriesFor_xiphAddField _ _ _ hne4]
    · unfold SaveSongStatisticsToFile
      rw [if_neg (by simp)]
  | xiph s =>
    refine ⟨rfl, ?_, ?_, fun b hb => by simp at hb⟩
    · unfold statsSaveApply ratingSlots SetFMPSStatisticsVorbisComments
      by_cases hp : song.playcount ≠ 0 <;> by_cases hs : song.score ≠ 0 <;>
        simp [hp, hs, entriesFor_xiphAddField _ _ _ hne3,
          entriesFor_xiphAddField _ _ _ hne4]
    · unfold SaveSongStatisticsToFile
      rw [if_neg (by simp)]
  | asf s =>
    refine ⟨?_, ?_, ?_, fun b hb => by simp at hb⟩
    · by_cases hp : song.playcount ≠ 0 <;> by_cases hs : song.score ≠ 0 <;>
        simp [statsSaveApply, basicsOf, hp, hs]
    · by_cases hp : song.playcount ≠ 0 <;> by_cases hs : song.score ≠ 0 <;>
        simp [statsSaveApply, ratingSlots, hp, hs,
          entriesFor_asfAddAttribute _ _ _ hne5,
          entriesFor_asfAddAttribute _ _ _ hne6]
    · unfold SaveSongStatisticsToFile
      rw [if_neg (by simp)]
  | mp4 s =>
    refine ⟨?_, ?_, ?_, fun b hb => by simp at hb⟩
    · by_cases hp : song.playcount ≠ 0 <;> by_cases hs : song.score ≠ 0 <;>
        simp [statsSaveApply, basicsOf, hp, hs]
    · by_cases hp : song.playcount ≠ 0 <;> by_cases hs : song.score ≠ 0 <;>
        simp [statsSaveApply, ratingSlots, hp, hs,
          entriesFor_mp4SetItem _ _ _ hne7,
          entriesFor_mp4SetItem _ _ _ hne8]
    · unfold SaveSongStatisticsToFile
      rw [if_neg (by simp)]
  | ape s =>
    refine ⟨rfl, ?_, ?_, fun b hb => by simp at hb⟩
    · unfold statsSaveApply ratingSlots saveApeSongStats
      have hne9 : ("FMPS_Rating" : String) ≠ "FMPS_Rating_Amarok_Score" := by decide
      have hne10 : ("FMPS_Rating" : String) ≠ "FMPS_PlayCount" := by decide
      by_cases hp : song.playcount ≠ 0 <;> by_cases hs : song.score ≠ 0 <;>
        simp [hp, hs, entriesFor_apeSetItem _ _ _ hne9,
          entriesFor_apeSetItem _ _ _ hne10]
    · unfold SaveSongStatisticsToFile
      rw [if_neg (by simp)]
  | other b0 =>
    refine ⟨rfl, rfl, ?_, fun b hb => ?_⟩
    · unfold SaveSongStatisticsToFile
      rw [if_neg (by simp)]
      rfl
    · unfold SaveSongStatisticsToFile
      rw [if_neg (by simp)]

/-- Witness for `statsSave_touches_only_stats`: a family with no statistics
slot returns success with the container untouched. -/
theorem statsSave_touches_only_stats_witness :
    SaveSongStatisticsToFile false
        (some (.other ⟨"t", "a", "al", "g", "c", 2000, 1⟩)) true defaultSong
      = ⟨true, true, some (.other ⟨"t", "a", "al", "g", "c", 2000, 1⟩)⟩ :=
  (statsSave_touches_only_stats defaultSong
    (.other ⟨"t", "a", "al", "g", "c", 2000, 1⟩) true).2.2.2
    ⟨"t", "a", "al", "g", "c", 2000, 1⟩ rfl

/-- **C9 counterexample** With a non-null filename, an unrated record
(rating -1) and a container that cannot be opened, `SaveSongRatingToFile`
returns success (the unrated no-op check precedes the open), contradicting
"every write operation returns failure". -/
theorem save_unavailable_counterexample :
    SaveSongRatingToFile false none true defaultSong = ⟨true, false, none⟩ ∧
    (SaveSongRatingToFile false none true defaultSong).ok ≠ false := by
  have h : SaveSongRatingToFile false none true defaultSong
      = ⟨true, false, none⟩ := by
    unfold SaveSongRatingToFile
    rw [if_neg (by simp), if_pos (by norm_num [defaultSong])]
  exact ⟨h, by rw [h]; simp⟩

/-- **C9 (amended)** With a null filename every write returns failure with
nothing opened; with a non-null filename and an unopenable container,
`SaveFile` and `SaveSongStatisticsToFile` return failure with no mutation,
and `SaveSongRatingToFile` returns failure when the rating is ≥ 0 but
returns success without even attempting the open when the rating is
negative (the unrated no-op check precedes the open); a read of an
unavailable container yields a record with valid = false. -/
theorem container_unavailable_amended (song : SongMetadata)
    (avail : Option TagFile) (saveOk : Bool) :
    SaveFile true avail saveOk song = ⟨false, false, none⟩ ∧
    SaveSongStatisticsToFile true avail saveOk song = ⟨false, false, none⟩ ∧
    SaveSongRatingToFile true avail saveOk song = ⟨false, false, none⟩ ∧
    SaveFile false none saveOk song = ⟨false, true, none⟩ ∧
    SaveSongStatisticsToFile false none saveOk song = ⟨false, true, none⟩ ∧
    (0 ≤ song.rating →
      SaveSongRatingToFile false none saveOk song = ⟨false, true, none⟩) ∧
    (song.rating < 0 →
      SaveSongRatingToFile false none saveOk song = ⟨true, false, none⟩) ∧
    (ReadFile .unavailable).valid = false := by
  refine ⟨?_, ?_, ?_, ?_, ?_, ?_, ?_, rfl⟩
  · unfold SaveFile; rw [if_pos rfl]
  · unfold SaveSongStatisticsToFile; rw [if_pos rfl]
  · unfold SaveSongRatingToFile; rw [if_pos rfl]
  · unfold SaveFile; rw [if_neg (by simp)]
  · unfold SaveSongStatisticsToFile; rw [if_neg (by simp)]
  · intro h
    unfold SaveSongRatingToFile
    rw [if_neg (by simp), if_neg (not_lt.mpr h)]
  · intro h
    unfold SaveSongRatingToFile
    rw [if_neg (by simp), if_pos h]

/-- Witness for `container_unavailable_amended`: a rated record fails
against the unopenable container; the unrated record succeeds without the
open. -/
theorem container_unavailable_amended_witness :
    (0 : ℚ) ≤ ({ defaultSong with rating := 1/2 } : SongMetadata).rating ∧
    SaveSongRatingToFile false none true { defaultSong with rating := 1/2 }
      = ⟨false, true, none⟩ ∧
    ({ defaultSong with rating := -1 } : SongMetadata).rating < 0 ∧
    SaveSongRatingToFile false none true { defaultSong with rating := -1 }
      = ⟨true, false, none⟩ := by
  have h1 : (0 : ℚ) ≤ ({ defaultSong with rating := 1/2 } : SongMetadata).rating := by
    show (0 : ℚ) ≤ 1/2
    norm_num
  have h2 : ({ defaultSong with rating := -1 } : SongMetadata).rating < 0 := by
    show (-1 : ℚ) < 0
    norm_num
  exact ⟨h1,
    (container_unavailable_amended { defaultSong with rating := 1/2 } none true).2.2.2.2.2.1 h1,
    h2,
    (container_unavailable_amended { defaultSong with rating := -1 } none true).2.2.2.2.2.2.1 h2⟩

end Clementine
